import Mathlib

/-!
Verification development for the Deci chat backend.

Shallow embedding of the decision logic of the repository:
the circuit breaker (utils/CircuitBreaker.ts, src/unnamed/part_002),
the bulletproof chat orchestrator (services/BulletproofChatService.ts),
the RAG client of ChatService (services/ChatService.ts), and the
HTTP chat routes (routes/chat.ts and the enhanced server in
src/unnamed/part_003).

Times are modelled as natural numbers of milliseconds.  Asynchronous
calls are modelled by explicit outcome values: a wrapped call either
completes (with a success value or an exception message) after some
duration, or hangs past the configured timeout.  Fallible external
calls caught by the code are modelled as Option values.
-/

namespace CircuitBreaker

/-- The three states of the breaker, from the CircuitState enum. -/
inductive CircuitState where
  | CLOSED
  | OPEN
  | HALF_OPEN
deriving DecidableEq

/-- CircuitBreakerOptions from the source (the logging name is dropped:
it has no effect on behaviour). -/
structure CircuitBreakerOptions where
  failureThreshold : Nat
  resetTimeout : Nat
  timeout : Nat
deriving DecidableEq

/-- The mutable fields of the CircuitBreaker class. -/
structure CBState where
  state : CircuitState
  failures : Nat
  lastFailureTime : Nat
deriving DecidableEq

/-- The field initializers of the CircuitBreaker class:
state CLOSED, failures 0, lastFailureTime 0. -/
def CBState.start : CBState :=
  { state := CircuitState.CLOSED, failures := 0, lastFailureTime := 0 }

/-- Behaviour of one invocation of the wrapped async function: it either
settles (resolves with a value or rejects with an exception message)
after the given duration in ms, or it hangs beyond any timeout. -/
inductive CallBehavior (T : Type) where
  | completes (result : Except String T) (duration : Nat)
  | hangs

/-- The possible results of CircuitBreaker.execute. -/
inductive ExecResult (T : Type) where
  | ok (v : T)
  | circuitOpen
  | timedOut
  | failed (msg : String)

/-- CircuitBreaker.onSuccess: reset the failure counter, and close the
circuit when it was HALF_OPEN. -/
def onSuccess (s : CBState) : CBState :=
  let s1 : CBState := { s with failures := 0 }
  if s1.state = CircuitState.HALF_OPEN then
    { s1 with state := CircuitState.CLOSED }
  else s1

/-- CircuitBreaker.onFailure at time failTime: increment the failure
counter, record the failure time, and open the circuit once the counter
has reached the threshold. -/
def onFailure (opts : CircuitBreakerOptions) (s : CBState) (failTime : Nat) : CBState :=
  let s1 : CBState := { s with failures := s.failures + 1, lastFailureTime := failTime }
  if opts.failureThreshold ≤ s1.failures then
    { s1 with state := CircuitState.OPEN }
  else s1

/-- CircuitBreaker.shouldAttemptReset: the reset timeout has elapsed
since the last failure. -/
def shouldAttemptReset (opts : CircuitBreakerOptions) (s : CBState) (now : Nat) : Bool :=
  opts.resetTimeout ≤ now - s.lastFailureTime

/-- Body of the try block of CircuitBreaker.execute: race the wrapped
call against the timeout promise, then apply onSuccess or onFailure.
The wrapped call wins the race exactly when it settles strictly before
the timeout fires; otherwise the timeout rejection is observed at time
now + timeout. -/
def runCall {T : Type} (opts : CircuitBreakerOptions) (s : CBState) (now : Nat)
    (call : CallBehavior T) : CBState × ExecResult T :=
  match call with
  | CallBehavior.completes (Except.ok v) d =>
      if d < opts.timeout then (onSuccess s, ExecResult.ok v)
      else (onFailure opts s (now + opts.timeout), ExecResult.timedOut)
  | CallBehavior.completes (Except.error e) d =>
      if d < opts.timeout then (onFailure opts s (now + d), ExecResult.failed e)
      else (onFailure opts s (now + opts.timeout), ExecResult.timedOut)
  | CallBehavior.hangs => (onFailure opts s (now + opts.timeout), ExecResult.timedOut)

/-- CircuitBreaker.execute entered at time now: while OPEN, reject with
the circuit-open error unless the reset timeout has elapsed, in which
case move to HALF_OPEN and run the trial call. -/
def execute {T : Type} (opts : CircuitBreakerOptions) (s : CBState) (now : Nat)
    (call : CallBehavior T) : CBState × ExecResult T :=
  if s.state = CircuitState.OPEN then
    if shouldAttemptReset opts s now then
      runCall opts { s with state := CircuitState.HALF_OPEN } now call
    else (s, ExecResult.circuitOpen)
  else
    runCall opts s now call

/-- States of the breaker reachable from the initial state by execute
steps (any entry times and any call behaviours). -/
inductive Reachable (opts : CircuitBreakerOptions) : CBState → Prop where
  | start : Reachable opts CBState.start
  | step {s : CBState} (now : Nat) {T : Type} (call : CallBehavior T) :
      Reachable opts s → Reachable opts (execute opts s now call).1

end CircuitBreaker

/-! String helpers modelling the JavaScript string operations used by the
services, written over the character lists of the strings so that the
kernel can evaluate them on concrete inputs. -/

/-- JavaScript String.prototype.toLowerCase restricted to the ASCII data
appearing in this codebase. -/
def lowerStr (s : String) : String :=
  String.mk (s.data.map Char.toLower)

/-- The first list is a leading segment of the second, character by
character. -/
def charsLeadWith : List Char → List Char → Bool
  | [], _ => true
  | _ :: _, [] => false
  | a :: as, b :: bs => a == b && charsLeadWith as bs

/-- The needle occurs contiguously somewhere in the haystack. -/
def charsOccur (needle : List Char) : List Char → Bool
  | [] => charsLeadWith needle []
  | c :: rest => charsLeadWith needle (c :: rest) || charsOccur needle rest

/-- JavaScript String.prototype.includes. -/
def strIncludes (hay needle : String) : Bool :=
  charsOccur needle.data hay.data

/-- JavaScript String.prototype.trim over the whitespace characters used
here (space, tab, carriage return, line feed). -/
def jsTrim (s : String) : String :=
  String.mk (((s.data.dropWhile Char.isWhitespace).reverse.dropWhile Char.isWhitespace).reverse)

/-! Data model shared by the chat services. -/

/-- One cited source snippet of a RAG result. -/
structure RAGSource where
  url : String
  «section» : String
  section_title : String
  snippet : String
deriving DecidableEq

/-- The RAGResponse record parsed from the RAG subprocess (the metadata
field is never inspected by the services and is dropped).  The optional
fallback_mode field is modelled as a Bool that is false when absent, and
the optional error field as an Option. -/
structure RAGResponse where
  answer : String
  sources : List RAGSource
  rag_available : Bool
  fallback_mode : Bool := false
  error : Option String := none
deriving DecidableEq

/-- Health levels reported per dependency by BulletproofChatService. -/
inductive HealthLevel where
  | healthy
  | degraded
  | down
deriving DecidableEq

/-- The service_health record of a ChatResponse. -/
structure ServiceHealth where
  ollama : HealthLevel
  rag : HealthLevel
deriving DecidableEq

/-- The ChatResponse record produced by the services.  The optional
sources field is an Option that is none when the field is not set; the
optional rag_used field is always set by both service variants and is
modelled as a plain Bool. -/
structure ChatResponse where
  text : String
  suggestions : List String
  relatedTopics : List String
  sources : Option (List RAGSource) := none
  rag_used : Bool := false
  service_health : Option ServiceHealth := none
deriving DecidableEq

namespace BulletproofChatService

/-- The fixed ten-element topic list of the service. -/
def topics : List String :=
  ["EMI Schemes",
   "Share Options",
   "Capital Gains Tax",
   "Income Tax on Shares",
   "Business Asset Disposal Relief",
   "CSOP Schemes",
   "SAYE Schemes",
   "Unapproved Options",
   "Share Valuations",
   "Tax Planning"]

/-- The three base suggestions of generateSuggestions. -/
def baseSuggestions : List String :=
  ["Can you explain this in more detail?",
   "What are the next steps I should take?",
   "Are there any risks I should be aware of?"]

/-- BulletproofChatService.generateSuggestions: push keyword-matched
extras onto the base list, then keep the first three. -/
def generateSuggestions (response : String) (originalMessage : String) : List String :=
  let low := lowerStr response
  let l1 := baseSuggestions
  let l2 := if strIncludes low "emi" then l1 ++ ["How do I set up an EMI scheme?"] else l1
  let l3 := if strIncludes low "tax" then l2 ++ ["What are the tax implications?"] else l2
  let l4 := if strIncludes low "valuation" then l3 ++ ["How is share valuation determined?"] else l3
  l4.take 3

/-- BulletproofChatService.extractRelatedTopics: the topics occurring
case-insensitively in the response, capped at four, defaulting to the
first four topics when none occurs. -/
def extractRelatedTopics (response : String) : List String :=
  let matched := topics.filter (fun t => strIncludes (lowerStr response) (lowerStr t))
  if matched.length > 0 then matched.take 4 else topics.take 4

/-- The greeting test of generateFallbackResponse, the regular
expression (hi|hello|hey) with an optional exclamation mark, matched
case-insensitively against the trimmed message. -/
def isGreeting (message : String) : Bool :=
  let t := lowerStr (jsTrim message)
  t == "hi" || t == "hi!" || t == "hello" || t == "hello!" || t == "hey" || t == "hey!"

/-- The greeting fallback text. -/
def greetingFallbackText : String :=
  "Hi! How can I help you today? I can help you with all things Equity so shoot your questions!"

/-- The canned fallback text enumerating the covered topics. -/
def cannedFallbackText : String :=
  "**Service Notice**\n\nI\x27m currently operating in limited mode due to external service issues, but I can still help with general equity compensation questions.\n\n**I specialize in:**\n• EMI schemes and eligibility requirements\n• Share option schemes (CSOP, SAYE, Unapproved)\n• Capital gains tax on shares\n• Income tax implications of equity compensation\n• Business Asset Disposal Relief\n• Tax planning strategies for equity\n\n**What to try:**\n1. Ask specific questions about UK equity schemes\n2. Request information about tax implications\n3. Check back in a few minutes for full service\n\nThe system will automatically recover when external services are restored."

/-- BulletproofChatService.generateFallbackResponse. -/
def generateFallbackResponse (message : String) : ChatResponse :=
  if isGreeting message then
    { text := greetingFallbackText,
      suggestions :=
        ["Tell me about EMI schemes",
         "What are CSOP schemes?",
         "How does capital gains tax work on shares?"],
      relatedTopics := topics.take 4,
      rag_used := false,
      service_health := some { ollama := HealthLevel.down, rag := HealthLevel.down } }
  else
    { text := cannedFallbackText,
      suggestions :=
        ["Tell me about EMI scheme eligibility",
         "What are the tax benefits of CSOP?",
         "How is Business Asset Disposal Relief calculated?"],
      relatedTopics := topics,
      rag_used := false,
      service_health := some { ollama := HealthLevel.down, rag := HealthLevel.down } }

/-- BulletproofChatService.formatResponse: a plain trim. -/
def formatResponse (response : String) (originalMessage : String) : String :=
  jsTrim response

/-- The citation suffix appended to a RAG answer with sources. -/
def citationSuffix : String :=
  "\n\n*This response is based on official HMRC documentation.*"

/-- The suffix appended to an Ollama answer enhanced with RAG context. -/
def enhancedSuffix : String :=
  "\n\n*This response is enhanced with official HMRC documentation.*"

/-- The HMRC context string built from RAG source snippets: the snippet
of each source labelled with its section title (or its section id when
the title is empty), joined by separators. -/
def buildSourceContext (sources : List RAGSource) : String :=
  String.intercalate "\n\n---\n\n"
    (sources.map (fun src =>
      "From HMRC " ++ (if src.section_title != "" then src.section_title else src.«section»)
        ++ ":\n" ++ src.snippet))

/-- Environment of one processMessage run: the observed outcome of the
RAG call through its breaker (none when safeRAGCall caught a failure and
returned null), the observed outcome of the Ollama call through its
breaker (none when safeOllamaCall returned null), and the initialization
flag of the service. -/
structure ServiceEnv where
  ragOutcome : Option RAGResponse
  ollamaOutcome : Option String
  isInit : Bool := true

/-- The usability test of the RAG outcome in processMessage: a response
was received, rag_available is set, the answer is truthy (non-empty) and
fallback_mode is not set. -/
def ragUsable : Option RAGResponse → Bool
  | some r => r.rag_available && r.answer != "" && !r.fallback_mode
  | none => false

/-- The Ollama-fallback half of processMessage: build the HMRC context
from any RAG sources, attach those sources, call Ollama, and degrade to
the fallback response when Ollama returned nothing usable. -/
def ollamaFallbackPath (ollamaOutcome : Option String) (message : String)
    (ragSources : List RAGSource) : ChatResponse :=
  let contextFromRAG := if ragSources.length > 0 then buildSourceContext ragSources else ""
  let ragHealth := if ragSources.length > 0 then HealthLevel.degraded else HealthLevel.down
  match ollamaOutcome with
  | some resp =>
      if resp != "" then
        let text0 := formatResponse resp message
        let text := if contextFromRAG != "" then text0 ++ enhancedSuffix else text0
        if text == "" then generateFallbackResponse message
        else
          { text := text,
            suggestions := generateSuggestions text message,
            relatedTopics := extractRelatedTopics text,
            sources := if ragSources.length > 0 then some ragSources else none,
            rag_used := false,
            service_health := some { ollama := HealthLevel.healthy, rag := ragHealth } }
      else generateFallbackResponse message
  | none => generateFallbackResponse message

/-- BulletproofChatService.processMessage as a function of the message
and of the observed dependency outcomes. -/
def processMessage (env : ServiceEnv) (message : String) : ChatResponse :=
  if !env.isInit then generateFallbackResponse message
  else
    match env.ragOutcome with
    | some r =>
        if r.rag_available && r.answer != "" && !r.fallback_mode then
          let text := if r.sources.length > 0 then r.answer ++ citationSuffix else r.answer
          { text := text,
            suggestions := generateSuggestions text message,
            relatedTopics := extractRelatedTopics text,
            sources := if r.sources.length > 0 then some r.sources else none,
            rag_used := true,
            service_health := some { ollama := HealthLevel.healthy, rag := HealthLevel.healthy } }
        else ollamaFallbackPath env.ollamaOutcome message r.sources
    | none => ollamaFallbackPath env.ollamaOutcome message []

end BulletproofChatService

namespace ChatService

/-- Outcome of the external RAG subprocess invocation as observed by
ChatService.callRAG: the exec call throws (non-zero exit or timeout),
the stdout is not valid JSON, or a RAGResponse record was parsed, with a
flag recording whether the rag_available property was present. -/
inductive RAGProcOutcome where
  | procFailure (msg : String)
  | parseFailure (msg : String)
  | parsed (r : RAGResponse) (hasAvailField : Bool)

/-- The record returned by the catch block of ChatService.callRAG. -/
def fallbackRAGResponse (msg : String) : RAGResponse :=
  { answer := "",
    sources := [],
    rag_available := false,
    fallback_mode := true,
    error := some msg }

/-- ChatService.callRAG as a function of the subprocess outcome: any
failure, including a parsed record lacking the rag_available property,
lands in the catch block and yields the fallback record. -/
def callRAG : RAGProcOutcome → RAGResponse
  | RAGProcOutcome.procFailure msg => fallbackRAGResponse msg
  | RAGProcOutcome.parseFailure msg => fallbackRAGResponse msg
  | RAGProcOutcome.parsed r hasAvail =>
      if hasAvail then r else fallbackRAGResponse "Invalid RAG response format"

end ChatService

namespace ChatRoutes

/-- JSON values a request body field can hold, as distinguished by the
JavaScript truthiness and typeof tests of the route handlers. -/
inductive JsonValue where
  | str (s : String)
  | num (n : Int)
  | boolVal (b : Bool)
  | nullVal
  | arrOrObj
deriving DecidableEq

/-- JavaScript typeof x === (quote) string (quote). -/
def jsonIsString : JsonValue → Bool
  | JsonValue.str _ => true
  | _ => false

/-- JavaScript truthiness of a JSON value. -/
def jsonTruthy : JsonValue → Bool
  | JsonValue.str s => s != ""
  | JsonValue.num n => n != 0
  | JsonValue.boolVal b => b
  | JsonValue.nullVal => false
  | JsonValue.arrOrObj => true

/-- A request body as seen by the handlers: the message field is absent
or holds some JSON value (the context field is never inspected). -/
structure ChatRequestBody where
  message : Option JsonValue
deriving DecidableEq

/-- Observable result of a route handler: a 400 with an error string, or
a 200 whose JSON body has the response, suggestions, relatedTopics,
sources and rag_used fields (the timestamp is not modelled). -/
inductive RouteResult where
  | badRequest (error : String)
  | okJson (response : String) (suggestions : List String)
      (relatedTopics : List String) (sources : List RAGSource) (rag_used : Bool)
deriving DecidableEq

/-- The validation error message of both handlers. -/
def invalidMessageError : String := "Message is required and must be a string"

/-- The POST /message handler of routes/chat.ts: reject when the message
field is falsy or not a string, otherwise delegate to
processMessage and shape its ChatResponse. -/
def chatMessageRoute (service : String → ChatResponse) (body : ChatRequestBody) : RouteResult :=
  match body.message with
  | some m =>
      if !(jsonTruthy m) || !(jsonIsString m) then RouteResult.badRequest invalidMessageError
      else
        match m with
        | JsonValue.str s =>
            let r := service s
            RouteResult.okJson r.text r.suggestions r.relatedTopics (r.sources.getD []) r.rag_used
        | _ => RouteResult.badRequest invalidMessageError
  | none => RouteResult.badRequest invalidMessageError

/-- The length-limit error message of the enhanced server. -/
def tooLongError : String := "Message is too long (max 10000 characters)"

/-- The fixed 200 response body the enhanced server returns while the
chat service is still unavailable (text abbreviated to its first line;
only its shape matters to the claims). -/
def initializingResponse : RouteResult :=
  RouteResult.okJson
    "The AI chat service is currently initializing. I can still provide general information about equity compensation:"
    ["Tell me about EMI scheme eligibility",
     "What are CSOP scheme benefits?",
     "How does SAYE work?"]
    ["EMI Schemes", "CSOP Schemes", "SAYE Schemes", "Tax Planning"]
    []
    false

/-- The POST /api/chat/message handler of the enhanced server
(src/unnamed/part_003): same validation as the router plus a 10000
character length cap, then delegation to the service when one is
available. -/
def enhancedChatMessageRoute (service : Option (String → ChatResponse))
    (body : ChatRequestBody) : RouteResult :=
  match body.message with
  | some m =>
      if !(jsonTruthy m) || !(jsonIsString m) then RouteResult.badRequest invalidMessageError
      else
        match m with
        | JsonValue.str s =>
            if s.length > 10000 then RouteResult.badRequest tooLongError
            else
              match service with
              | some svc =>
                  let r := svc s
                  RouteResult.okJson r.text r.suggestions r.relatedTopics
                    (r.sources.getD []) r.rag_used
              | none => initializingResponse
        | _ => RouteResult.badRequest invalidMessageError
  | none => RouteResult.badRequest invalidMessageError

end ChatRoutes

/-! Concrete fixtures used by witness and counterexample theorems. -/

/-- The Ollama breaker options of BulletproofChatService: threshold 3,
reset 30000 ms, timeout 45000 ms. -/
def opts0 : CircuitBreaker.CircuitBreakerOptions :=
  { failureThreshold := 3, resetTimeout := 30000, timeout := 45000 }

/-- A wrapped call that rejects after 5 ms. -/
def failCallU : CircuitBreaker.CallBehavior Unit :=
  CircuitBreaker.CallBehavior.completes (Except.error "boom") 5

/-- Breaker state after three consecutive failures under opts0. -/
def cbOpen3 : CircuitBreaker.CBState :=
  { state := CircuitBreaker.CircuitState.OPEN, failures := 3, lastFailureTime := 3005 }

/-- The transient trial state entered from cbOpen3. -/
def cbHalfOpen3 : CircuitBreaker.CBState :=
  { state := CircuitBreaker.CircuitState.HALF_OPEN, failures := 3, lastFailureTime := 3005 }

/-- Breaker state after two consecutive failures under opts0, one short
of the threshold. -/
def cbTwoFails : CircuitBreaker.CBState :=
  { state := CircuitBreaker.CircuitState.CLOSED, failures := 2, lastFailureTime := 2005 }

/-- A sample RAG source snippet. -/
def src0 : RAGSource :=
  { url := "u", «section» := "s1", section_title := "EMI guide", snippet := "EMI text" }

/-- A usable RAG result. -/
def ragGood : RAGResponse :=
  { answer := "EMI schemes rock", sources := [src0], rag_available := true }

/-- An unusable RAG result that still carries a source snippet. -/
def ragBad : RAGResponse :=
  { answer := "", sources := [src0], rag_available := false }

/-- Environment in which both dependency calls failed. -/
def envNoDeps : BulletproofChatService.ServiceEnv :=
  { ragOutcome := none, ollamaOutcome := none, isInit := true }

/-- Environment in which the RAG call returned a usable answer. -/
def envRagOk : BulletproofChatService.ServiceEnv :=
  { ragOutcome := some ragGood, ollamaOutcome := none, isInit := true }

/-- Environment in which RAG was unusable but provided sources and the
Ollama call succeeded. -/
def envRagBadLLM : BulletproofChatService.ServiceEnv :=
  { ragOutcome := some ragBad, ollamaOutcome := some "LLM answer", isInit := true }

/-- Environment of an uninitialized service. -/
def envNoInit : BulletproofChatService.ServiceEnv :=
  { ragOutcome := none, ollamaOutcome := none, isInit := false }

/-- A 10001 character message. -/
def longMsg : String := String.mk (List.replicate 10001 (Char.ofNat 97))

/-! Theorems. -/

namespace CircuitBreaker

theorem onSuccess_state_ne_open {s : CBState} (hs : s.state ≠ CircuitState.OPEN) :
    (onSuccess s).state ≠ CircuitState.OPEN := by
  by_cases h : s.state = CircuitState.HALF_OPEN <;> simp [onSuccess, h, hs]

theorem onFailure_open_threshold (opts : CircuitBreakerOptions) (s : CBState) (t : Nat)
    (hs : s.state ≠ CircuitState.OPEN) :
    (onFailure opts s t).state = CircuitState.OPEN →
      opts.failureThreshold ≤ (onFailure opts s t).failures := by
  by_cases h : opts.failureThreshold ≤ s.failures + 1 <;> simp [onFailure, h, hs]

theorem runCall_open_threshold {T : Type} (opts : CircuitBreakerOptions) (s : CBState)
    (now : Nat) (call : CallBehavior T) (hs : s.state ≠ CircuitState.OPEN) :
    (runCall opts s now call).1.state = CircuitState.OPEN →
      opts.failureThreshold ≤ (runCall opts s now call).1.failures := by
  rcases call with ⟨res, d⟩ | _
  · rcases res with e | v
    · by_cases hd : d < opts.timeout
      · simp only [runCall, if_pos hd]
        exact onFailure_open_threshold opts s (now + d) hs
      · simp only [runCall, if_neg hd]
        exact onFailure_open_threshold opts s (now + opts.timeout) hs
    · by_cases hd : d < opts.timeout
      · simp only [runCall, if_pos hd]
        intro h
        exact absurd h (onSuccess_state_ne_open hs)
      · simp only [runCall, if_neg hd]
        exact onFailure_open_threshold opts s (now + opts.timeout) hs
  · simp only [runCall]
    exact onFailure_open_threshold opts s (now + opts.timeout) hs

/-- Invariant of reachable breaker states: the circuit is only OPEN once
the failure counter has reached the threshold. -/
theorem reachable_open_threshold {opts : CircuitBreakerOptions} {s : CBState}
    (h : Reachable opts s) :
    s.state = CircuitState.OPEN → opts.failureThreshold ≤ s.failures := by
  induction h with
  | start =>
      intro hs
      exact absurd hs (by simp [CBState.start])
  | step now call h ih =>
      unfold execute
      split
      · split
        · exact runCall_open_threshold _ _ now call (by simp)
        · simpa using ih
      · next hso =>
          exact runCall_open_threshold _ _ now call hso

end CircuitBreaker

open CircuitBreaker in
/-- Claim C1: the circuit breaker follows the stated state machine:
it starts CLOSED with a zero counter; each failure of the wrapped call
increments the failure counter and records the failure time; once the
counter reaches failureThreshold the state is OPEN; while OPEN before
the reset timeout has elapsed, execute rejects immediately with the
circuit-open error and leaves the state unchanged, for every behaviour
of the wrapped call; once the reset timeout has elapsed the next execute
runs the one trial call from HALF_OPEN; a HALF_OPEN success transitions
to CLOSED and resets the failure counter to 0; and a HALF_OPEN trial
failure from a reachable OPEN state returns to OPEN with the failure
timestamp reset to the new failure time. -/
theorem C1_circuit_breaker_state_machine
    (opts : CircuitBreakerOptions) (s : CBState) (now t d : Nat) (e : String)
    {T : Type} (v : T) (call : CallBehavior T) :
    CBState.start.state = CircuitState.CLOSED
    ∧ CBState.start.failures = 0
    ∧ (onFailure opts s t).failures = s.failures + 1
    ∧ (onFailure opts s t).lastFailureTime = t
    ∧ (opts.failureThreshold ≤ s.failures + 1 →
        (onFailure opts s t).state = CircuitState.OPEN)
    ∧ (s.state = CircuitState.OPEN → shouldAttemptReset opts s now = false →
        execute opts s now call = (s, ExecResult.circuitOpen))
    ∧ (s.state = CircuitState.OPEN → shouldAttemptReset opts s now = true →
        execute opts s now call
          = runCall opts { s with state := CircuitState.HALF_OPEN } now call)
    ∧ (s.state = CircuitState.HALF_OPEN → d < opts.timeout →
        (execute opts s now (CallBehavior.completes (Except.ok v) d)).1
          = { s with state := CircuitState.CLOSED, failures := 0 })
    ∧ (Reachable opts s → s.state = CircuitState.OPEN →
        shouldAttemptReset opts s now = true → d < opts.timeout →
        (execute opts s now
            (CallBehavior.completes (Except.error e) d : CallBehavior T)).1
          = { state := CircuitState.OPEN, failures := s.failures + 1,
              lastFailureTime := now + d }) := by
  refine ⟨rfl, rfl, ?_, ?_, ?_, ?_, ?_, ?_, ?_⟩
  · simp only [onFailure]
    split <;> rfl
  · simp only [onFailure]
    split <;> rfl
  · intro hth
    simp [onFailure, hth]
  · intro hso hreset
    simp [execute, hso, hreset]
  · intro hso hreset
    simp [execute, hso, hreset]
  · intro hho hd
    have hne : s.state ≠ CircuitState.OPEN := by simp [hho]
    simp [execute, hne, runCall, hd, onSuccess, hho]
  · intro hreach hso hreset hd
    have hth : opts.failureThreshold ≤ s.failures :=
      reachable_open_threshold hreach hso
    have hth1 : opts.failureThreshold ≤ s.failures + 1 := Nat.le_succ_of_le hth
    simp [execute, hso, hreset, runCall, hd, onFailure, hth1]

open CircuitBreaker in
/-- Witness for C1 at the Ollama breaker options, at a state reached by
three consecutive failures. -/
theorem C1_witness :
    CBState.start.state = CircuitState.CLOSED
    ∧ (onFailure opts0 cbOpen3 2000).failures = cbOpen3.failures + 1
    ∧ (onFailure opts0 cbOpen3 2000).lastFailureTime = 2000
    ∧ (onFailure opts0 cbOpen3 2000).state = CircuitState.OPEN
    ∧ execute opts0 cbOpen3 4000 failCallU = (cbOpen3, ExecResult.circuitOpen)
    ∧ execute opts0 cbOpen3 40000 failCallU
        = runCall opts0 { cbOpen3 with state := CircuitState.HALF_OPEN } 40000 failCallU
    ∧ (execute opts0 cbHalfOpen3 40000
          (CallBehavior.completes (Except.ok ()) 5)).1
        = { cbHalfOpen3 with state := CircuitState.CLOSED, failures := 0 }
    ∧ (execute opts0 cbOpen3 40000
          (CallBehavior.completes (Except.error "boom") 5 : CallBehavior Unit)).1
        = { state := CircuitState.OPEN, failures := cbOpen3.failures + 1,
            lastFailureTime := 40005 } := by
  have hreach : Reachable opts0 cbOpen3 := by
    have h1 := Reachable.step 1000 failCallU (@Reachable.start opts0)
    have h2 := Reachable.step 2000 failCallU h1
    have h3 := Reachable.step 3000 failCallU h2
    have heq :
        (execute opts0 (execute opts0 (execute opts0 CBState.start 1000 failCallU).1
            2000 failCallU).1 3000 failCallU).1 = cbOpen3 := by decide
    exact heq ▸ h3
  have h4000 := C1_circuit_breaker_state_machine opts0 cbOpen3 4000 2000 5 "boom" () failCallU
  have h40000 := C1_circuit_breaker_state_machine opts0 cbOpen3 40000 2000 5 "boom" () failCallU
  have hhalf := C1_circuit_breaker_state_machine opts0 cbHalfOpen3 40000 2000 5 "boom" () failCallU
  refine ⟨h4000.1, h4000.2.2.1, h4000.2.2.2.1, ?_, ?_, ?_, ?_, ?_⟩
  · exact h4000.2.2.2.2.1 (by decide)
  · exact h4000.2.2.2.2.2.1 rfl (by decide)
  · exact h40000.2.2.2.2.2.2.1 rfl (by decide)
  · exact hhalf.2.2.2.2.2.2.2.1 rfl (by decide)
  · have := h40000.2.2.2.2.2.2.2.2 hreach rfl (by decide) (by decide)
    simpa using this

open CircuitBreaker in
/-- Claim C6: when the circuit is not rejecting the call, execute fails
with the timeout error exactly when the wrapped call does not settle
within the configured timeout duration (it hangs, or settles no earlier
than the timeout fires); otherwise it returns the wrapped call result or
propagates the wrapped call failure.  A timeout is counted as a failure
identically to an exception from the wrapped call: the post-state of a
timed-out call equals the post-state of a call that rejects when the
timeout fires, the failure counter is incremented, and the circuit opens
once the counter reaches the threshold. -/
theorem C6_execute_timeout_contract
    (opts : CircuitBreakerOptions) (s : CBState) (now : Nat)
    {T : Type} (v : T) (e : String) (D d : Nat)
    (hs : s.state ≠ CircuitState.OPEN) :
    execute opts s now (CallBehavior.hangs : CallBehavior T)
        = (onFailure opts s (now + opts.timeout), ExecResult.timedOut)
    ∧ (opts.timeout ≤ D →
        execute opts s now (CallBehavior.completes (Except.ok v) D)
          = (onFailure opts s (now + opts.timeout), ExecResult.timedOut))
    ∧ (opts.timeout ≤ D →
        execute opts s now
            (CallBehavior.completes (Except.error e) D : CallBehavior T)
          = (onFailure opts s (now + opts.timeout), ExecResult.timedOut))
    ∧ (d < opts.timeout →
        execute opts s now (CallBehavior.completes (Except.ok v) d)
          = (onSuccess s, ExecResult.ok v))
    ∧ (d < opts.timeout →
        execute opts s now
            (CallBehavior.completes (Except.error e) d : CallBehavior T)
          = (onFailure opts s (now + d), ExecResult.failed e))
    ∧ (opts.timeout ≤ D →
        (execute opts s now (CallBehavior.hangs : CallBehavior T)).1
          = (execute opts s now
              (CallBehavior.completes (Except.error e) D : CallBehavior T)).1)
    ∧ (execute opts s now (CallBehavior.hangs : CallBehavior T)).1.failures
        = s.failures + 1
    ∧ (opts.failureThreshold ≤ s.failures + 1 →
        (execute opts s now (CallBehavior.hangs : CallBehavior T)).1.state
          = CircuitState.OPEN) := by
  refine ⟨?_, ?_, ?_, ?_, ?_, ?_, ?_, ?_⟩
  · simp [execute, hs, runCall]
  · intro hD
    simp [execute, hs, runCall, Nat.not_lt.mpr hD]
  · intro hD
    simp [execute, hs, runCall, Nat.not_lt.mpr hD]
  · intro hd
    simp [execute, hs, runCall, hd]
  · intro hd
    simp [execute, hs, runCall, hd]
  · intro hD
    simp [execute, hs, runCall, Nat.not_lt.mpr hD]
  · simp only [execute, if_neg (by simpa using hs), runCall]
    simp [onFailure]
    split <;> rfl
  · intro hth
    simp [execute, hs, runCall, onFailure, hth]

open CircuitBreaker in
/-- Witness for C6 at the Ollama breaker options from the initial CLOSED
state, with a call hanging past the 45000 ms timeout, one resolving at
50000 ms, one rejecting at 50000 ms, one resolving at 5 ms and one
rejecting at 5 ms. -/
theorem C6_witness :
    execute opts0 CBState.start 1000 (CallBehavior.hangs : CallBehavior Unit)
        = (onFailure opts0 CBState.start 46000, ExecResult.timedOut)
    ∧ execute opts0 CBState.start 1000 (CallBehavior.completes (Except.ok ()) 50000)
        = (onFailure opts0 CBState.start 46000, ExecResult.timedOut)
    ∧ execute opts0 CBState.start 1000
          (CallBehavior.completes (Except.error "boom") 50000 : CallBehavior Unit)
        = (onFailure opts0 CBState.start 46000, ExecResult.timedOut)
    ∧ execute opts0 CBState.start 1000 (CallBehavior.completes (Except.ok ()) 5)
        = (onSuccess CBState.start, ExecResult.ok ())
    ∧ execute opts0 CBState.start 1000
          (CallBehavior.completes (Except.error "boom") 5 : CallBehavior Unit)
        = (onFailure opts0 CBState.start 1005, ExecResult.failed "boom")
    ∧ (execute opts0 CBState.start 1000 (CallBehavior.hangs : CallBehavior Unit)).1
        = (execute opts0 CBState.start 1000
            (CallBehavior.completes (Except.error "boom") 50000 : CallBehavior Unit)).1
    ∧ (execute opts0 CBState.start 1000 (CallBehavior.hangs : CallBehavior Unit)).1.failures
        = CBState.start.failures + 1
    ∧ (execute opts0 cbTwoFails 10000 (CallBehavior.hangs : CallBehavior Unit)).1.state
        = CircuitState.OPEN := by
  have h := C6_execute_timeout_contract opts0 CBState.start 1000 () "boom" 50000 5
    (by decide)
  have h2 := C6_execute_timeout_contract opts0 cbTwoFails 10000 () "boom" 50000 5
    (by decide)
  have e1 : (1000 : Nat) + opts0.timeout = 46000 := by decide
  refine ⟨?_, ?_, ?_, h.2.2.2.1 (by decide), ?_, h.2.2.2.2.2.1 (by decide),
    h.2.2.2.2.2.2.1, h2.2.2.2.2.2.2.2 (by decide)⟩
  · simpa [e1] using h.1
  · simpa [e1] using h.2.1 (by decide)
  · simpa [e1] using h.2.2.1 (by decide)
  · simpa using h.2.2.2.2.1 (by decide)

namespace BulletproofChatService

theorem generateSuggestions_length (r m : String) :
    (generateSuggestions r m).length = 3 := by
  simp only [generateSuggestions]
  split_ifs <;> rfl

theorem extractRelatedTopics_length_le (r : String) :
    (extractRelatedTopics r).length ≤ 4 := by
  simp only [extractRelatedTopics]
  split
  · exact List.length_take_le 4 _
  · decide

theorem extractRelatedTopics_ne_nil (r : String) :
    extractRelatedTopics r ≠ [] := by
  simp only [extractRelatedTopics]
  split
  · next hlen =>
      have hpos : 0 < (List.take 4 (topics.filter
          (fun t => strIncludes (lowerStr r) (lowerStr t)))).length := by
        rw [List.length_take]
        omega
      exact List.length_pos.mp hpos
  · decide

theorem generateFallbackResponse_rag_used (m : String) :
    (generateFallbackResponse m).rag_used = false := by
  by_cases hg : isGreeting m = true <;> simp [generateFallbackResponse, hg]

theorem generateFallbackResponse_suggestions_length (m : String) :
    (generateFallbackResponse m).suggestions.length = 3 := by
  by_cases hg : isGreeting m = true <;> simp [generateFallbackResponse, hg]

theorem generateFallbackResponse_relatedTopics (m : String) :
    (generateFallbackResponse m).relatedTopics
      = (if isGreeting m then topics.take 4 else topics) := by
  by_cases hg : isGreeting m = true <;> simp [generateFallbackResponse, hg]

theorem generateFallbackResponse_relatedTopics_ne_nil (m : String) :
    (generateFallbackResponse m).relatedTopics ≠ [] := by
  by_cases hg : isGreeting m = true <;> simp [generateFallbackResponse, hg, topics]

theorem ollamaFallbackPath_rag_used (o : Option String) (m : String)
    (srcs : List RAGSource) :
    (ollamaFallbackPath o m srcs).rag_used = false := by
  rcases o with _ | s
  · simp [ollamaFallbackPath, generateFallbackResponse_rag_used]
  · simp only [ollamaFallbackPath]
    split_ifs <;> simp [generateFallbackResponse_rag_used]

theorem ollamaFallbackPath_shape (o : Option String) (m : String)
    (srcs : List RAGSource) :
    ollamaFallbackPath o m srcs = generateFallbackResponse m
    ∨ ((ollamaFallbackPath o m srcs).suggestions
          = generateSuggestions (ollamaFallbackPath o m srcs).text m
       ∧ (ollamaFallbackPath o m srcs).relatedTopics
          = extractRelatedTopics (ollamaFallbackPath o m srcs).text) := by
  rcases o with _ | s
  · left
    simp [ollamaFallbackPath]
  · simp only [ollamaFallbackPath]
    split_ifs <;>
      first
        | (left; rfl)
        | (right; exact ⟨rfl, rfl⟩)

theorem processMessage_shape (env : ServiceEnv) (m : String) :
    processMessage env m = generateFallbackResponse m
    ∨ ((processMessage env m).suggestions
          = generateSuggestions (processMessage env m).text m
       ∧ (processMessage env m).relatedTopics
          = extractRelatedTopics (processMessage env m).text) := by
  by_cases hI : env.isInit = true
  · rcases hR : env.ragOutcome with _ | r
    · have hred : processMessage env m = ollamaFallbackPath env.ollamaOutcome m [] := by
        simp [processMessage, hI, hR]
      rw [hred]
      exact ollamaFallbackPath_shape env.ollamaOutcome m []
    · by_cases hc : (r.rag_available && r.answer != "" && !r.fallback_mode) = true
      · right
        have hred : processMessage env m =
            (let text := if r.sources.length > 0 then r.answer ++ citationSuffix else r.answer
             { text := text,
               suggestions := generateSuggestions text m,
               relatedTopics := extractRelatedTopics text,
               sources := if r.sources.length > 0 then some r.sources else none,
               rag_used := true,
               service_health :=
                 some { ollama := HealthLevel.healthy, rag := HealthLevel.healthy } }) := by
          simp [processMessage, hI, hR, hc]
        rw [hred]
        exact ⟨rfl, rfl⟩
      · have hc2 : (r.rag_available && r.answer != "" && !r.fallback_mode) = false := by
          simpa using hc
        have hred : processMessage env m = ollamaFallbackPath env.ollamaOutcome m r.sources := by
          simp [processMessage, hI, hR, hc2]
        rw [hred]
        exact ollamaFallbackPath_shape env.ollamaOutcome m r.sources
  · have hI2 : env.isInit = false := by simpa using hI
    left
    simp [processMessage, hI2]

theorem processMessage_suggestions_length (env : ServiceEnv) (m : String) :
    (processMessage env m).suggestions.length = 3 := by
  rcases processMessage_shape env m with h | h
  · rw [h]
    exact generateFallbackResponse_suggestions_length m
  · rw [h.1]
    exact generateSuggestions_length _ m

theorem processMessage_fallback_of_bothFail (env : ServiceEnv) (m : String)
    (hrag : ragUsable env.ragOutcome = false)
    (hllm : env.ollamaOutcome = none ∨ env.ollamaOutcome = some "") :
    processMessage env m = generateFallbackResponse m := by
  have hpath : ∀ srcs : List RAGSource,
      ollamaFallbackPath env.ollamaOutcome m srcs = generateFallbackResponse m := by
    intro srcs
    rcases hllm with h | h <;> simp [ollamaFallbackPath, h]
  by_cases hI : env.isInit = true
  · rcases hR : env.ragOutcome with _ | r
    · have hred : processMessage env m = ollamaFallbackPath env.ollamaOutcome m [] := by
        simp [processMessage, hI, hR]
      rw [hred]
      exact hpath []
    · have hc2 : (r.rag_available && r.answer != "" && !r.fallback_mode) = false := by
        simpa [ragUsable, hR] using hrag
      have hred : processMessage env m = ollamaFallbackPath env.ollamaOutcome m r.sources := by
        simp [processMessage, hI, hR, hc2]
      rw [hred]
      exact hpath r.sources
  · have hI2 : env.isInit = false := by simpa using hI
    simp [processMessage, hI2]

theorem processMessage_rag_used_eq (env : ServiceEnv) (m : String) :
    (processMessage env m).rag_used = (env.isInit && ragUsable env.ragOutcome) := by
  by_cases hI : env.isInit = true
  · rcases hR : env.ragOutcome with _ | r
    · simp [processMessage, hI, hR, ollamaFallbackPath_rag_used, ragUsable]
    · by_cases hc : (r.rag_available && r.answer != "" && !r.fallback_mode) = true
      · simp [processMessage, hI, hR, hc, ragUsable]
      · have hc2 : (r.rag_available && r.answer != "" && !r.fallback_mode) = false := by
          simpa using hc
        simp [processMessage, hI, hR, hc2, ollamaFallbackPath_rag_used, ragUsable]
  · have hI2 : env.isInit = false := by simpa using hI
    simp [processMessage, hI2, generateFallbackResponse_rag_used]

end BulletproofChatService

open BulletproofChatService in
/-- Claim C2: whenever the RAG call returns a result with rag_available
true, a non-empty answer and fallback_mode not set, processMessage
returns that answer verbatim as the response text, with the citation
suffix appended exactly when the returned sources list is non-empty,
with rag_used true and the returned sources attached. -/
theorem C2_rag_answer_verbatim (env : ServiceEnv) (message : String) (r : RAGResponse)
    (hinit : env.isInit = true) (hr : env.ragOutcome = some r)
    (hav : r.rag_available = true) (hans : r.answer ≠ "")
    (hfb : r.fallback_mode = false) :
    (processMessage env message).text
        = r.answer ++ (if r.sources.length > 0 then citationSuffix else "")
    ∧ (processMessage env message).rag_used = true
    ∧ (processMessage env message).sources
        = (if r.sources.length > 0 then some r.sources else none) := by
  have hans2 : (r.answer != "") = true := by simpa using hans
  by_cases hsrc : r.sources.length > 0 <;>
    simp [processMessage, hinit, hr, hav, hfb, hans2, hsrc]

open BulletproofChatService in
/-- Witness for C2 at a usable RAG result carrying one source. -/
theorem C2_witness :
    (processMessage envRagOk "q").text
        = ragGood.answer ++ (if ragGood.sources.length > 0 then citationSuffix else "")
    ∧ (processMessage envRagOk "q").rag_used = true
    ∧ (processMessage envRagOk "q").sources
        = (if ragGood.sources.length > 0 then some ragGood.sources else none) :=
  C2_rag_answer_verbatim envRagOk "q" ragGood rfl rfl rfl (by decide) rfl

open BulletproofChatService in
/-- Counterexample to claim C3 as stated: for the greeting message hi
with both dependencies failed, processMessage returns the greeting
fallback text, which is not the canned fallback text enumerating the
covered topics. -/
theorem C3_counterexample :
    (processMessage envNoDeps "hi").text = greetingFallbackText
    ∧ greetingFallbackText ≠ cannedFallbackText :=
  ⟨rfl, by decide⟩

open BulletproofChatService in
/-- Claim C3 as amended: when the RAG outcome is unusable and the LLM
call failed (returned null or an empty string), processMessage returns
the fallback response with rag_used false; its text is the canned text
enumerating the covered topics for non-greeting messages, and the
greeting text for greeting messages. -/
theorem C3_amended_fallback_response (env : ServiceEnv) (message : String)
    (hrag : ragUsable env.ragOutcome = false)
    (hllm : env.ollamaOutcome = none ∨ env.ollamaOutcome = some "") :
    processMessage env message = generateFallbackResponse message
    ∧ (processMessage env message).rag_used = false
    ∧ (isGreeting message = false →
        (processMessage env message).text = cannedFallbackText)
    ∧ (isGreeting message = true →
        (processMessage env message).text = greetingFallbackText) := by
  have hmain := processMessage_fallback_of_bothFail env message hrag hllm
  refine ⟨hmain, ?_, ?_, ?_⟩
  · rw [hmain]
    exact generateFallbackResponse_rag_used message
  · intro hg
    rw [hmain]
    simp [generateFallbackResponse, hg]
  · intro hg
    rw [hmain]
    simp [generateFallbackResponse, hg]

open BulletproofChatService in
/-- Witness for the amended C3 at a non-greeting message with both
dependencies failed. -/
theorem C3_witness :
    processMessage envNoDeps "tell me about emi"
        = generateFallbackResponse "tell me about emi"
    ∧ (processMessage envNoDeps "tell me about emi").rag_used = false
    ∧ (processMessage envNoDeps "tell me about emi").text = cannedFallbackText := by
  have h := C3_amended_fallback_response envNoDeps "tell me about emi" rfl (Or.inl rfl)
  exact ⟨h.1, h.2.1, h.2.2.1 rfl⟩

open BulletproofChatService in
/-- Counterexample to claim C4 as stated: with an unusable RAG result
that still carries a source snippet and a successful LLM call, the
non-empty RAG context is folded into the system prompt (visible in the
appended enhancement suffix), yet the response is marked rag_used
false. -/
theorem C4_counterexample :
    buildSourceContext ragBad.sources ≠ ""
    ∧ (processMessage envRagBadLLM "q").text = "LLM answer" ++ enhancedSuffix
    ∧ (processMessage envRagBadLLM "q").rag_used = false :=
  ⟨by decide, rfl, rfl⟩

open BulletproofChatService in
/-- Claim C4 as amended: on the LLM fallback path BulletproofChatService
marks the response rag_used false whether or not RAG context was folded
into the system prompt; rag_used is true exactly when the service is
initialized and the RAG answer itself was usable and used verbatim. -/
theorem C4_amended_rag_used_iff (env : ServiceEnv) (message : String) :
    (processMessage env message).rag_used = true
      ↔ (env.isInit = true ∧ ragUsable env.ragOutcome = true) := by
  rw [processMessage_rag_used_eq]
  simp [Bool.and_eq_true]

open BulletproofChatService ChatRoutes in
/-- Claim C7: processMessage is total at the orchestrator boundary: for
every dependency environment, including every modelled failure of the
RAG call, the LLM call or initialization, the HTTP route receives an
ordinary shaped response rather than a propagated error, and terminal
failures degrade to the fallback response. -/
theorem C7_orchestrator_total (env : ServiceEnv) (message s : String) (hs : s ≠ "") :
    chatMessageRoute (processMessage env) { message := some (JsonValue.str s) }
      = RouteResult.okJson (processMessage env s).text
          (processMessage env s).suggestions
          (processMessage env s).relatedTopics
          ((processMessage env s).sources.getD [])
          (processMessage env s).rag_used
    ∧ (env.isInit = false →
        processMessage env message = generateFallbackResponse message)
    ∧ (ragUsable env.ragOutcome = false → env.ollamaOutcome = none →
        processMessage env message = generateFallbackResponse message) := by
  refine ⟨?_, ?_, ?_⟩
  · have hs2 : (s != "") = true := by simpa using hs
    simp [chatMessageRoute, jsonTruthy, jsonIsString, hs2]
  · intro hI
    simp [processMessage, hI]
  · intro hrag hllm
    exact processMessage_fallback_of_bothFail env message hrag (Or.inl hllm)

open BulletproofChatService ChatRoutes in
/-- Witness for C7 with both dependencies failed and with an
uninitialized service. -/
theorem C7_witness :
    chatMessageRoute (processMessage envNoDeps) { message := some (JsonValue.str "hi") }
      = RouteResult.okJson (processMessage envNoDeps "hi").text
          (processMessage envNoDeps "hi").suggestions
          (processMessage envNoDeps "hi").relatedTopics
          ((processMessage envNoDeps "hi").sources.getD [])
          (processMessage envNoDeps "hi").rag_used
    ∧ processMessage envNoInit "x" = generateFallbackResponse "x"
    ∧ processMessage envNoDeps "x" = generateFallbackResponse "x" := by
  have h1 := C7_orchestrator_total envNoDeps "x" "hi" (by decide)
  have h2 := C7_orchestrator_total envNoInit "x" "hi" (by decide)
  exact ⟨h1.1, h2.2.1 rfl, h1.2.2 rfl rfl⟩

open BulletproofChatService in
/-- Counterexample to claim C8 as stated: the non-greeting fallback
response attaches the full ten-element topic list as relatedTopics,
exceeding the stated cap of four. -/
theorem C8_counterexample :
    ¬ ((processMessage envNoDeps "x").relatedTopics.length ≤ 4) := by
  decide

open BulletproofChatService in
/-- Claim C8 as amended: every response of processMessage has exactly
three suggestions; responses produced on the RAG or LLM paths derive
their suggestions and relatedTopics by case-insensitive substring
matching of the fixed lists against the response text, with
relatedTopics capped at four; fallback responses instead carry fixed
lists, with the first four topics for greetings and the full ten-element
topic list otherwise. -/
theorem C8_amended_suggestion_topic_shape (env : ServiceEnv) (m : String) :
    (processMessage env m).suggestions.length = 3
    ∧ (processMessage env m ≠ generateFallbackResponse m →
        (processMessage env m).suggestions
            = generateSuggestions (processMessage env m).text m
        ∧ (processMessage env m).relatedTopics
            = extractRelatedTopics (processMessage env m).text
        ∧ (processMessage env m).relatedTopics.length ≤ 4)
    ∧ (processMessage env m = generateFallbackResponse m →
        (processMessage env m).relatedTopics
          = (if isGreeting m then topics.take 4 else topics)) := by
  refine ⟨processMessage_suggestions_length env m, ?_, ?_⟩
  · intro hne
    rcases processMessage_shape env m with h | h
    · exact absurd h hne
    · refine ⟨h.1, h.2, ?_⟩
      rw [h.2]
      exact extractRelatedTopics_length_le _
  · intro he
    rw [he]
    exact generateFallbackResponse_relatedTopics m

open BulletproofChatService in
/-- Witness for the amended C8 on a RAG-path response and on a
non-greeting fallback response. -/
theorem C8_witness :
    (processMessage envRagOk "q").suggestions.length = 3
    ∧ ((processMessage envRagOk "q").suggestions
          = generateSuggestions (processMessage envRagOk "q").text "q"
       ∧ (processMessage envRagOk "q").relatedTopics
          = extractRelatedTopics (processMessage envRagOk "q").text
       ∧ (processMessage envRagOk "q").relatedTopics.length ≤ 4)
    ∧ (processMessage envNoDeps "x").relatedTopics
        = (if isGreeting "x" then topics.take 4 else topics) := by
  refine ⟨(C8_amended_suggestion_topic_shape envRagOk "q").1,
    (C8_amended_suggestion_topic_shape envRagOk "q").2.1 ?_,
    (C8_amended_suggestion_topic_shape envNoDeps "x").2.2 rfl⟩
  decide

open BulletproofChatService in
/-- Claim C10: extractRelatedTopics never returns an empty list: when no
topic of the fixed ten occurs case-insensitively in the response text,
it returns the first four topics as a default, so the relatedTopics of
every processMessage response is non-empty. -/
theorem C10_related_topics_never_empty (r : String) (env : ServiceEnv) (m : String) :
    extractRelatedTopics r ≠ []
    ∧ (topics.filter (fun t => strIncludes (lowerStr r) (lowerStr t)) = [] →
        extractRelatedTopics r = topics.take 4)
    ∧ (processMessage env m).relatedTopics ≠ [] := by
  refine ⟨extractRelatedTopics_ne_nil r, ?_, ?_⟩
  · intro h
    simp [extractRelatedTopics, h]
  · rcases processMessage_shape env m with h | h
    · rw [h]
      exact generateFallbackResponse_relatedTopics_ne_nil m
    · rw [h.2]
      exact extractRelatedTopics_ne_nil _

open BulletproofChatService in
/-- Witness for C10 at a response text containing no topic. -/
theorem C10_witness :
    extractRelatedTopics "zzz" ≠ []
    ∧ extractRelatedTopics "zzz" = topics.take 4
    ∧ (processMessage envNoDeps "zzz").relatedTopics ≠ [] := by
  have h := C10_related_topics_never_empty "zzz" envNoDeps "zzz"
  exact ⟨h.1, h.2.1 (by decide), h.2.2⟩

open ChatService in
/-- Claim C5: the RAG client query of ChatService is total: every
failure of the external process call (non-zero exit or timeout,
malformed JSON output, or a parsed record lacking the rag_available
property) yields the fallback record with rag_available false,
fallback_mode true and the error message attached, rather than a thrown
error, and a successfully parsed record is returned as is. -/
theorem C5_callRAG_always_returns (msg : String) (r : RAGResponse) :
    callRAG (RAGProcOutcome.procFailure msg) = fallbackRAGResponse msg
    ∧ callRAG (RAGProcOutcome.parseFailure msg) = fallbackRAGResponse msg
    ∧ callRAG (RAGProcOutcome.parsed r false)
        = fallbackRAGResponse "Invalid RAG response format"
    ∧ callRAG (RAGProcOutcome.parsed r true) = r
    ∧ (fallbackRAGResponse msg).rag_available = false
    ∧ (fallbackRAGResponse msg).fallback_mode = true
    ∧ (fallbackRAGResponse msg).error = some msg :=
  ⟨rfl, rfl, rfl, rfl, rfl, rfl, rfl⟩

open ChatRoutes BulletproofChatService in
/-- Counterexample to claim C9 as stated: the empty string is a string,
yet the handler rejects it with a 400 because of the JavaScript
truthiness test, so a 400 also occurs for a message that is present and
of string type. -/
theorem C9_counterexample :
    jsonIsString (JsonValue.str "") = true
    ∧ chatMessageRoute (processMessage envNoDeps) { message := some (JsonValue.str "") }
        = RouteResult.badRequest invalidMessageError :=
  ⟨rfl, rfl⟩

open ChatRoutes in
/-- Claim C9 as amended: the handlers return 400 when the message field
is missing, not a string, or the empty string (and, in the enhanced
server, when it is longer than 10000 characters), and any 400 is decided
without consulting the chat service; for a non-empty string message (of
at most 10000 characters in the enhanced server) the handlers respond
with the response, suggestions, relatedTopics, sources and rag_used
shape built from the service response. -/
theorem C9_amended_route_validation (svc svc2 : String → ChatResponse)
    (body : ChatRequestBody) (mv : JsonValue) (s : String) :
    (body.message = none →
        chatMessageRoute svc body = RouteResult.badRequest invalidMessageError)
    ∧ (body.message = some mv → jsonIsString mv = false →
        chatMessageRoute svc body = RouteResult.badRequest invalidMessageError)
    ∧ (body.message = some (JsonValue.str "") →
        chatMessageRoute svc body = RouteResult.badRequest invalidMessageError)
    ∧ (∀ e : String, chatMessageRoute svc body = RouteResult.badRequest e →
        chatMessageRoute svc2 body = RouteResult.badRequest e)
    ∧ (body.message = some (JsonValue.str s) → s ≠ "" →
        chatMessageRoute svc body
          = RouteResult.okJson (svc s).text (svc s).suggestions (svc s).relatedTopics
              ((svc s).sources.getD []) (svc s).rag_used)
    ∧ (body.message = some (JsonValue.str s) → s ≠ "" → s.length ≤ 10000 →
        enhancedChatMessageRoute (some svc) body
          = RouteResult.okJson (svc s).text (svc s).suggestions (svc s).relatedTopics
              ((svc s).sources.getD []) (svc s).rag_used)
    ∧ (body.message = some (JsonValue.str s) → s.length > 10000 →
        enhancedChatMessageRoute (some svc) body
          = RouteResult.badRequest tooLongError) := by
  refine ⟨?_, ?_, ?_, ?_, ?_, ?_, ?_⟩
  · intro h
    simp [chatMessageRoute, h]
  · intro h hstr
    rcases mv with s2 | n | b | _ | _
    · simp [jsonIsString] at hstr
    · simp [chatMessageRoute, h, jsonIsString, jsonTruthy]
    · simp [chatMessageRoute, h, jsonIsString, jsonTruthy]
    · simp [chatMessageRoute, h, jsonIsString, jsonTruthy]
    · simp [chatMessageRoute, h, jsonIsString, jsonTruthy]
  · intro h
    simp [chatMessageRoute, h, jsonTruthy]
  · intro e h
    rcases hm : body.message with _ | m2
    · simpa [chatMessageRoute, hm] using h
    · rcases m2 with s2 | n | b | _ | _
      · by_cases hs2 : s2 = ""
        · subst hs2
          simp [chatMessageRoute, hm, jsonTruthy] at h ⊢
          exact h
        · have hs3 : (s2 != "") = true := by simpa using hs2
          simp [chatMessageRoute, hm, jsonTruthy, jsonIsString, hs3] at h
      · simpa [chatMessageRoute, hm, jsonTruthy, jsonIsString] using h
      · simpa [chatMessageRoute, hm, jsonTruthy, jsonIsString] using h
      · simpa [chatMessageRoute, hm, jsonTruthy, jsonIsString] using h
      · simpa [chatMessageRoute, hm, jsonTruthy, jsonIsString] using h
  · intro h hs
    have hs2 : (s != "") = true := by simpa using hs
    simp [chatMessageRoute, h, jsonTruthy, jsonIsString, hs2]
  · intro h hs hlen
    have hs2 : (s != "") = true := by simpa using hs
    have hlen2 : ¬ (s.length > 10000) := by omega
    simp [enhancedChatMessageRoute, h, jsonTruthy, jsonIsString, hs2, hlen2]
  · intro h hlen
    have hs : (s != "") = true := by
      have : s ≠ "" := by
        intro he
        rw [he] at hlen
        simp [String.length] at hlen
      simpa using this
    simp [enhancedChatMessageRoute, h, jsonTruthy, jsonIsString, hs, hlen]

open ChatRoutes BulletproofChatService in
/-- Witness for the amended C9: missing message, non-string message, a
valid short message through both handlers, and an over-long message
through the enhanced handler. -/
theorem C9_witness :
    chatMessageRoute (processMessage envNoDeps) { message := none }
        = RouteResult.badRequest invalidMessageError
    ∧ chatMessageRoute (processMessage envNoDeps) { message := some (JsonValue.num 5) }
        = RouteResult.badRequest invalidMessageError
    ∧ chatMessageRoute (processMessage envNoDeps) { message := some (JsonValue.str "hi") }
        = RouteResult.okJson (processMessage envNoDeps "hi").text
            (processMessage envNoDeps "hi").suggestions
            (processMessage envNoDeps "hi").relatedTopics
            ((processMessage envNoDeps "hi").sources.getD [])
            (processMessage envNoDeps "hi").rag_used
    ∧ enhancedChatMessageRoute (some (processMessage envNoDeps))
          { message := some (JsonValue.str "hi") }
        = RouteResult.okJson (processMessage envNoDeps "hi").text
            (processMessage envNoDeps "hi").suggestions
            (processMessage envNoDeps "hi").relatedTopics
            ((processMessage envNoDeps "hi").sources.getD [])
            (processMessage envNoDeps "hi").rag_used
    ∧ enhancedChatMessageRoute (some (processMessage envNoDeps))
          { message := some (JsonValue.str longMsg) }
        = RouteResult.badRequest tooLongError := by
  have hlen : longMsg.length > 10000 := by
    show (List.replicate 10001 (Char.ofNat 97)).length > 10000
    rw [List.length_replicate]
    omega
  refine ⟨?_, ?_, ?_, ?_, ?_⟩
  · exact (C9_amended_route_validation (processMessage envNoDeps) (processMessage envNoDeps)
      { message := none } (JsonValue.num 5) "hi").1 rfl
  · exact (C9_amended_route_validation (processMessage envNoDeps) (processMessage envNoDeps)
      { message := some (JsonValue.num 5) } (JsonValue.num 5) "hi").2.1 rfl rfl
  · exact (C9_amended_route_validation (processMessage envNoDeps) (processMessage envNoDeps)
      { message := some (JsonValue.str "hi") } (JsonValue.num 5) "hi").2.2.2.2.1 rfl
      (by decide)
  · exact (C9_amended_route_validation (processMessage envNoDeps) (processMessage envNoDeps)
      { message := some (JsonValue.str "hi") } (JsonValue.num 5) "hi").2.2.2.2.2.1 rfl
      (by decide) (by decide)
  · exact (C9_amended_route_validation (processMessage envNoDeps) (processMessage envNoDeps)
      { message := some (JsonValue.str longMsg) } (JsonValue.num 5) longMsg).2.2.2.2.2.2 rfl
      hlen
